import Mathlib

/-!
Shallow embedding of the core of the whatsapp-ai repository: the relational
stores (messages, chats, scheduled messages), the event-to-storage sync
pipeline, the vector index, the reconnect state machine of the WhatsApp
client, the encryption token format and the encrypted credential loading,
and the scheduled-message delivery loop.  Each definition is translated
from the corresponding TypeScript source; SQL tables are modelled as lists
of rows (primary-key uniqueness is carried as an explicit hypothesis where
a proof needs it), JSON-encoded columns are modelled by their decoded
values, and the updated_at bookkeeping column (always rewritten to the
current time) is omitted from row models.
-/

/-- Semantics of COALESCE(a, b) in SQLite over nullable values. -/
def coalesce {α : Type} (a b : Option α) : Option α :=
  match a with
  | some v => some v
  | none => b

/-- Lookup in a JavaScript object modelled as an association list in key
insertion order. -/
def lookupAssoc (m : List (String × List String)) (k : String) : Option (List String) :=
  (m.find? (fun p => p.1 == k)).map (fun p => p.2)

/-- Assignment obj[k] = v on a JavaScript object: an existing key keeps its
position, a new key is appended at the end. -/
def setAssoc (m : List (String × List String)) (k : String) (v : List String) :
    List (String × List String) :=
  if m.any (fun p => p.1 == k) then
    m.map (fun p => if p.1 == k then (k, v) else p)
  else m ++ [(k, v)]

/-- Insertion into a list sorted by a boolean comparison, used to model the
ORDER BY clauses of the store queries. -/
def insertSorted {α : Type} (le : α → α → Bool) (x : α) : List α → List α
  | [] => [x]
  | y :: ys => if le x y then x :: y :: ys else y :: insertSorted le x ys

/-- Insertion sort by a boolean comparison. -/
def sortByB {α : Type} (le : α → α → Bool) (l : List α) : List α :=
  l.foldr (insertSorted le) []

/-- Byte order on characters, as SQLite compares TEXT values. -/
def charLtB (a b : Char) : Bool := a.val < b.val

/-- Lexicographic order on character lists. -/
def charListLeB : List Char → List Char → Bool
  | [], _ => true
  | _ :: _, [] => false
  | a :: as, b :: bs =>
    if charLtB a b then true
    else if charLtB b a then false
    else charListLeB as bs

/-- Comparison of TEXT column values (the ISO timestamp strings compare
lexicographically, matching SQLite byte order on them). -/
def textLeB (a b : String) : Bool := charListLeB a.data b.data

/-- Check from utils/formatting.ts: a JID names a group iff it ends in the
group suffix. -/
def isGroupJid (jid : String) : Bool :=
  List.isSuffixOf "@g.us".data jid.data

/-- A row of the messages table (schema.ts), with the reactions TEXT column
modelled by its JSON-decoded emoji-to-reactors map. -/
structure MessageRow where
  id : String
  chatJid : String
  senderJid : Option String
  content : Option String
  timestamp : String
  isFromMe : Bool
  isForwarded : Bool
  isStarred : Bool
  isDeleted : Bool
  replyToId : Option String
  mediaType : Option String
  mediaUrl : Option String
  mediaMimeType : Option String
  mediaFilename : Option String
  mediaSize : Option Int
  mediaDownloaded : Bool
  mediaLocalPath : Option String
  reactions : Option (List (String × List String))
  deriving Repr, DecidableEq

/-- Argument of MessageStore.upsert: a Partial Message with id, chatJid and
timestamp required; absent optional fields are none. -/
structure MessageUpsert where
  id : String
  chatJid : String
  timestamp : String
  senderJid : Option String := none
  content : Option String := none
  isFromMe : Option Bool := none
  isForwarded : Option Bool := none
  isStarred : Option Bool := none
  isDeleted : Option Bool := none
  replyToId : Option String := none
  mediaType : Option String := none
  mediaUrl : Option String := none
  mediaMimeType : Option String := none
  mediaFilename : Option String := none
  mediaSize : Option Int := none
  mediaDownloaded : Option Bool := none
  mediaLocalPath : Option String := none
  reactions : Option (List (String × List String)) := none
  deriving Repr, DecidableEq

/-- Parameters actually bound by stmt.run in MessageStore.upsert.  The
nullable columns are bound with the null coalescing operator, while the
boolean flags are bound with a JavaScript truthiness check (flag ? 1 : 0)
and are therefore never null. -/
structure MessageBind where
  id : String
  chatJid : String
  timestamp : String
  senderJid : Option String
  content : Option String
  isFromMe : Bool
  isForwarded : Bool
  isStarred : Bool
  isDeleted : Bool
  replyToId : Option String
  mediaType : Option String
  mediaUrl : Option String
  mediaMimeType : Option String
  mediaFilename : Option String
  mediaSize : Option Int
  mediaDownloaded : Bool
  mediaLocalPath : Option String
  reactions : Option (List (String × List String))
  deriving Repr, DecidableEq

/-- Binding step of MessageStore.upsert (the stmt.run argument object). -/
def MessageStore.bindParams (m : MessageUpsert) : MessageBind where
  id := m.id
  chatJid := m.chatJid
  timestamp := m.timestamp
  senderJid := m.senderJid
  content := m.content
  isFromMe := m.isFromMe.getD false
  isForwarded := m.isForwarded.getD false
  isStarred := m.isStarred.getD false
  isDeleted := m.isDeleted.getD false
  replyToId := m.replyToId
  mediaType := m.mediaType
  mediaUrl := m.mediaUrl
  mediaMimeType := m.mediaMimeType
  mediaFilename := m.mediaFilename
  mediaSize := m.mediaSize
  mediaDownloaded := m.mediaDownloaded.getD false
  mediaLocalPath := m.mediaLocalPath
  reactions := m.reactions

/-- Row inserted by the VALUES clause of MessageStore.upsert when the id is
new. -/
def MessageStore.insertRow (b : MessageBind) : MessageRow where
  id := b.id
  chatJid := b.chatJid
  senderJid := b.senderJid
  content := b.content
  timestamp := b.timestamp
  isFromMe := b.isFromMe
  isForwarded := b.isForwarded
  isStarred := b.isStarred
  isDeleted := b.isDeleted
  replyToId := b.replyToId
  mediaType := b.mediaType
  mediaUrl := b.mediaUrl
  mediaMimeType := b.mediaMimeType
  mediaFilename := b.mediaFilename
  mediaSize := b.mediaSize
  mediaDownloaded := b.mediaDownloaded
  mediaLocalPath := b.mediaLocalPath
  reactions := b.reactions

/-- Effect of the ON CONFLICT(id) DO UPDATE clause of MessageStore.upsert on
the existing row.  The clause coalesces content, is_starred, is_deleted,
media_downloaded, media_local_path and reactions with the bound parameters
and leaves every other column untouched; for the three boolean flags the
bound parameter is never null, so the coalesce always takes the new value. -/
def MessageStore.conflictUpdate (b : MessageBind) (r : MessageRow) : MessageRow :=
  { r with
    content := coalesce b.content r.content
    isStarred := b.isStarred
    isDeleted := b.isDeleted
    mediaDownloaded := b.mediaDownloaded
    mediaLocalPath := coalesce b.mediaLocalPath r.mediaLocalPath
    reactions := coalesce b.reactions r.reactions }

/-- The messages table. -/
abbrev MessageDb := List MessageRow

/-- INSERT ... ON CONFLICT(id) DO UPDATE of MessageStore.upsert over the
bound parameters. -/
def MessageStore.upsertBound (db : MessageDb) (b : MessageBind) : MessageDb :=
  if db.any (fun r => r.id == b.id) then
    db.map (fun r => if r.id == b.id then MessageStore.conflictUpdate b r else r)
  else
    db ++ [MessageStore.insertRow b]

/-- Translation of MessageStore.upsert. -/
def MessageStore.upsert (db : MessageDb) (m : MessageUpsert) : MessageDb :=
  MessageStore.upsertBound db (MessageStore.bindParams m)

/-- Translation of MessageStore.getById. -/
def MessageStore.getById (db : MessageDb) (id : String) : Option MessageRow :=
  db.find? (fun r => r.id == id)

/-- Translation of MessageStore.updateReactions: rewrite the reactions
column of the rows with the given id. -/
def MessageStore.updateReactions (db : MessageDb) (id : String)
    (reactions : List (String × List String)) : MessageDb :=
  db.map (fun r => if r.id == id then { r with reactions := some reactions } else r)

/-- A row of the chats table (schema.ts), without the updated_at column. -/
structure ChatRow where
  jid : String
  name : Option String
  isGroup : Bool
  isArchived : Bool
  isPinned : Bool
  isMuted : Bool
  muteUntil : Option String
  unreadCount : Int
  lastMessageTime : Option String
  deriving Repr, DecidableEq

/-- Argument of ChatStore.upsert: a Partial Chat with jid required. -/
structure ChatUpsert where
  jid : String
  name : Option String := none
  isGroup : Option Bool := none
  isArchived : Option Bool := none
  isPinned : Option Bool := none
  isMuted : Option Bool := none
  muteUntil : Option String := none
  unreadCount : Option Int := none
  lastMessageTime : Option String := none
  deriving Repr, DecidableEq

/-- Parameters bound by stmt.run in ChatStore.upsert: name, mute_until and
last_message_time are bound with the null coalescing operator; the boolean
flags use a truthiness check, and unread_count is bound as
chat.unreadCount ?? 0, so neither is ever null. -/
structure ChatBind where
  jid : String
  name : Option String
  isGroup : Bool
  isArchived : Bool
  isPinned : Bool
  isMuted : Bool
  muteUntil : Option String
  unreadCount : Int
  lastMessageTime : Option String
  deriving Repr, DecidableEq

/-- Binding step of ChatStore.upsert. -/
def ChatStore.bindParams (c : ChatUpsert) : ChatBind where
  jid := c.jid
  name := c.name
  isGroup := c.isGroup.getD false
  isArchived := c.isArchived.getD false
  isPinned := c.isPinned.getD false
  isMuted := c.isMuted.getD false
  muteUntil := c.muteUntil
  unreadCount := c.unreadCount.getD 0
  lastMessageTime := c.lastMessageTime

/-- Row inserted by the VALUES clause of ChatStore.upsert. -/
def ChatStore.insertRow (b : ChatBind) : ChatRow where
  jid := b.jid
  name := b.name
  isGroup := b.isGroup
  isArchived := b.isArchived
  isPinned := b.isPinned
  isMuted := b.isMuted
  muteUntil := b.muteUntil
  unreadCount := b.unreadCount
  lastMessageTime := b.lastMessageTime

/-- Effect of the ON CONFLICT(jid) DO UPDATE clause of ChatStore.upsert:
name, is_archived, is_pinned, is_muted, mute_until, unread_count and
last_message_time are coalesced with the bound parameters (is_group is not
updated on conflict); the boolean flags and unread_count are bound non-null,
so the coalesce always takes the new value for them. -/
def ChatStore.conflictUpdate (b : ChatBind) (r : ChatRow) : ChatRow :=
  { r with
    name := coalesce b.name r.name
    isArchived := b.isArchived
    isPinned := b.isPinned
    isMuted := b.isMuted
    muteUntil := coalesce b.muteUntil r.muteUntil
    unreadCount := b.unreadCount
    lastMessageTime := coalesce b.lastMessageTime r.lastMessageTime }

/-- The chats table. -/
abbrev ChatDb := List ChatRow

/-- Translation of ChatStore.upsert. -/
def ChatStore.upsert (db : ChatDb) (c : ChatUpsert) : ChatDb :=
  let b := ChatStore.bindParams c
  if db.any (fun r => r.jid == b.jid) then
    db.map (fun r => if r.jid == b.jid then ChatStore.conflictUpdate b r else r)
  else
    db ++ [ChatStore.insertRow b]

/-- Translation of ChatStore.getByJid. -/
def ChatStore.getByJid (db : ChatDb) (jid : String) : Option ChatRow :=
  db.find? (fun r => r.jid == jid)

/-- Translation of ChatStore.setUnreadCount. -/
def ChatStore.setUnreadCount (db : ChatDb) (jid : String) (count : Int) : ChatDb :=
  db.map (fun r => if r.jid == jid then { r with unreadCount := count } else r)

/-- Translation of ChatStore.markAsRead. -/
def ChatStore.markAsRead (db : ChatDb) (jid : String) : ChatDb :=
  ChatStore.setUnreadCount db jid 0

/-- Fields of an IncomingMessage that the message.new sync handler reads
(timestamp already rendered to its ISO string). -/
structure IncomingMessageEv where
  id : String
  chatJid : String
  senderJid : String
  content : Option String
  timestamp : String
  isFromMe : Bool
  isForwarded : Bool
  quotedMessageId : Option String
  messageType : String
  mediaMimeType : Option String
  mediaFilename : Option String
  mediaSize : Option Int
  deriving Repr, DecidableEq

/-- Message-store payload built by the message.new handler in
setupWhatsAppEventHandlers (server.ts): the starred, deleted and
media_downloaded flags are not part of the payload. -/
def messageNewUpsert (msg : IncomingMessageEv) : MessageUpsert where
  id := msg.id
  chatJid := msg.chatJid
  timestamp := msg.timestamp
  senderJid := some msg.senderJid
  content := msg.content
  isFromMe := some msg.isFromMe
  isForwarded := some msg.isForwarded
  replyToId := msg.quotedMessageId
  mediaType := if msg.messageType != "text" then some msg.messageType else none
  mediaMimeType := msg.mediaMimeType
  mediaFilename := msg.mediaFilename
  mediaSize := msg.mediaSize

/-- Chat-store payload built by the message.new handler: only jid, the
last message time and the group flag are provided. -/
def messageNewChatUpsert (msg : IncomingMessageEv) : ChatUpsert where
  jid := msg.chatJid
  lastMessageTime := some msg.timestamp
  isGroup := some (isGroupJid msg.chatJid)

/-- Translation of the message.new handler in setupWhatsAppEventHandlers:
message upsert followed by the chat last-message-time upsert (the
best-effort embedding request is fire-and-forget and does not touch these
stores). -/
def handleMessageNew (mdb : MessageDb) (cdb : ChatDb) (msg : IncomingMessageEv) :
    MessageDb × ChatDb :=
  (MessageStore.upsert mdb (messageNewUpsert msg),
   ChatStore.upsert cdb (messageNewChatUpsert msg))

/-- Translation of the chat.update handler in setupWhatsAppEventHandlers. -/
def handleChatUpdate (cdb : ChatDb) (jid : String) (name : Option String)
    (unreadCount : Option Int) : ChatDb :=
  ChatStore.upsert cdb { jid := jid, name := name, unreadCount := unreadCount }

/-- A message.reaction event as emitted by the WhatsApp client. -/
structure ReactionEvent where
  messageId : String
  chatJid : String
  emoji : String
  senderJid : String
  deriving Repr, DecidableEq

/-- Translation of the message.reaction handler in
setupWhatsAppEventHandlers: look up the message, decode the stored reaction
map (empty when the column is null), add the reactor under the emoji when
not already present, and write the map back; an unknown message id makes
the handler a no-op. -/
def handleReaction (db : MessageDb) (ev : ReactionEvent) : MessageDb :=
  match MessageStore.getById db ev.messageId with
  | none => db
  | some m =>
    let reactions := m.reactions.getD []
    let entry := (lookupAssoc reactions ev.emoji).getD []
    let entry2 := if ev.senderJid ∈ entry then entry else entry ++ [ev.senderJid]
    MessageStore.updateReactions db ev.messageId (setAssoc reactions ev.emoji entry2)

/-- A stored message embedding: one entry per message id across the
message_embeddings and message_embeddings_meta tables. -/
structure EmbeddingRow where
  messageId : String
  embedding : List Int
  model : String
  deriving Repr, DecidableEq

/-- State of the VectorStore: the initialized flag set by a successful
initialize() call, plus the stored embeddings. -/
structure VectorStoreState where
  initialized : Bool
  rows : List EmbeddingRow
  deriving Repr, DecidableEq

/-- Squared euclidean distance, standing in for the sqlite-vec distance of
the MATCH query (the extension itself is an external dependency). -/
def dist2 (a b : List Int) : Int :=
  ((a.zip b).map (fun p => (p.1 - p.2) * (p.1 - p.2))).sum

/-- Translation of VectorStore.search: an uninitialized store throws; an
initialized one returns message ids ranked ascending by distance, limited. -/
def VectorStore.search (vs : VectorStoreState) (q : List Int) (limit : Nat) :
    Except String (List (String × Int)) :=
  if !vs.initialized then .error "Vector store not initialized"
  else
    .ok ((sortByB (fun a b => decide (a.2 ≤ b.2))
      (vs.rows.map (fun r => (r.messageId, dist2 q r.embedding)))).take limit)

/-- Translation of VectorStore.upsert: an uninitialized store throws; an
initialized one replaces any prior embedding for the message. -/
def VectorStore.upsert (vs : VectorStoreState) (id : String) (emb : List Int)
    (model : String) : Except String VectorStoreState :=
  if !vs.initialized then .error "Vector store not initialized"
  else
    .ok { vs with rows := vs.rows.filter (fun e => e.messageId != id) ++ [⟨id, emb, model⟩] }

/-- Translation of VectorStore.hasEmbedding. -/
def VectorStore.hasEmbedding (vs : VectorStoreState) (id : String) : Bool :=
  vs.initialized && vs.rows.any (fun e => e.messageId == id)

/-- Translation of VectorStore.getUnembeddedMessageIds: ids of messages with
non-empty, non-deleted content and no stored embedding, newest first,
limited; an uninitialized store returns the empty list. -/
def VectorStore.getUnembeddedMessageIds (vs : VectorStoreState) (msgs : MessageDb)
    (limit : Nat) : List String :=
  if !vs.initialized then []
  else
    ((sortByB (fun a b => textLeB b.timestamp a.timestamp)
        (msgs.filter (fun m =>
          (match m.content with | some c => c != "" | none => false)
          && !m.isDeleted
          && vs.rows.all (fun e => e.messageId != m.id)))).map
      (fun m => m.id)).take limit

/-- Translation of VectorStore.getEmbeddedCount. -/
def VectorStore.getEmbeddedCount (vs : VectorStoreState) : Nat :=
  if !vs.initialized then 0 else vs.rows.length

/-- Translation of VectorStore.delete: a no-op when uninitialized. -/
def VectorStore.delete (vs : VectorStoreState) (id : String) : VectorStoreState :=
  if !vs.initialized then vs
  else { vs with rows := vs.rows.filter (fun e => e.messageId != id) }

/-- Reconnect constant maxReconnectAttempts of WhatsAppClient. -/
def maxReconnectAttempts : Nat := 10

/-- Reconnect constant baseReconnectDelay of WhatsAppClient, milliseconds. -/
def baseReconnectDelay : Nat := 1000

/-- Reconnect constant maxReconnectDelay of WhatsAppClient, milliseconds. -/
def maxReconnectDelay : Nat := 60000

/-- Backoff delay computed by scheduleReconnect: min of base times two to
the attempt number plus the random jitter, and the configured maximum
(jitter is Math.random() times 1000, a value in [0, 1000)). -/
def reconnectDelay (attempts jitter : Nat) : Nat :=
  min (baseReconnectDelay * 2 ^ attempts + jitter) maxReconnectDelay

/-- Observable state of the WhatsAppClient reconnect machinery: the attempt
counter, whether a retry timer is pending, the connection flags, whether a
live socket exists (and can still emit events), and counters of the emitted
signals.  The scheduledDelays list records the delay of every retry timer
ever scheduled, in order. -/
structure ClientState where
  reconnectAttempts : Nat
  timerPending : Bool
  isConnected : Bool
  isConnecting : Bool
  socketLive : Bool
  scheduledDelays : List Nat
  failedEmitted : Nat
  logoutEmitted : Nat
  deriving Repr, DecidableEq

/-- Translation of WhatsAppClient.scheduleReconnect: at or above the attempt
cap it emits the terminal connection.failed signal and schedules nothing;
below the cap it computes the backoff delay from the current counter, then
increments the counter and starts the retry timer. -/
def WhatsAppClient.scheduleReconnect (s : ClientState) (jitter : Nat) : ClientState :=
  if s.reconnectAttempts ≥ maxReconnectAttempts then
    { s with failedEmitted := s.failedEmitted + 1 }
  else
    { s with
      reconnectAttempts := s.reconnectAttempts + 1
      scheduledDelays := s.scheduledDelays ++ [reconnectDelay s.reconnectAttempts jitter]
      timerPending := true }

/-- Events driving the reconnect state machine: connection.update close with
a recoverable cause (carrying the jitter drawn for the backoff), close with
the loggedOut cause, connection.update open, the retry timer firing (with
whether the connect() call manages to create a socket), a manual connect()
call, and a manual disconnect() call. -/
inductive ClientEvent
  | closeRecoverable (jitter : Nat)
  | closeLoggedOut
  | connOpen
  | timerFire (connectOk : Bool)
  | manualConnect (connectOk : Bool)
  | manualDisconnect
  deriving Repr, DecidableEq

/-- Net effect of a connect() call on the observable state: a no-op while
connecting or connected; otherwise it creates a socket (isConnecting set),
or, when socket creation fails, rethrows with isConnecting back to false. -/
def WhatsAppClient.connectStep (s : ClientState) (ok : Bool) : ClientState :=
  if s.isConnecting || s.isConnected then s
  else if ok then { s with isConnecting := true, socketLive := true }
  else s

/-- One step of the reconnect state machine, from the connection.update
handler in setupEventHandlers together with disconnect() and connect(). -/
def WhatsAppClient.step (s : ClientState) : ClientEvent → ClientState
  | .closeRecoverable jitter =>
      WhatsAppClient.scheduleReconnect
        { s with isConnected := false, isConnecting := false, socketLive := false } jitter
  | .closeLoggedOut =>
      { s with isConnected := false, isConnecting := false, socketLive := false
               reconnectAttempts := 0, logoutEmitted := s.logoutEmitted + 1 }
  | .connOpen =>
      { s with reconnectAttempts := 0, isConnected := true, isConnecting := false }
  | .timerFire ok => WhatsAppClient.connectStep { s with timerPending := false } ok
  | .manualConnect ok => WhatsAppClient.connectStep s ok
  | .manualDisconnect =>
      { s with timerPending := false, reconnectAttempts := 0, socketLive := false
               isConnected := false, isConnecting := false }

/-- Run of the reconnect state machine over an event sequence. -/
def WhatsAppClient.run (s : ClientState) (evs : List ClientEvent) : ClientState :=
  evs.foldl WhatsAppClient.step s

/-- Whether an event can occur in a state: close and open events come from a
live socket, the timer can only fire while pending, manual calls are always
possible. -/
def eventAllowed (s : ClientState) : ClientEvent → Bool
  | .closeRecoverable _ => s.socketLive
  | .closeLoggedOut => s.socketLive
  | .connOpen => s.socketLive
  | .timerFire _ => s.timerPending
  | .manualConnect _ => true
  | .manualDisconnect => true

/-- Well-formedness of an event sequence from a state. -/
def wfRun (s : ClientState) : List ClientEvent → Bool
  | [] => true
  | e :: rest => eventAllowed s e && wfRun (WhatsAppClient.step s e) rest

/-- Events that belong to an unattended reconnect run: socket closes with a
recoverable cause and timer firings, with no successful open, no logout and
no manual intervention. -/
def autonomousEvent : ClientEvent → Bool
  | .closeRecoverable _ => true
  | .timerFire _ => true
  | _ => false

/-- Whether an event is a recoverable socket close. -/
def isRecoverableClose : ClientEvent → Bool
  | .closeRecoverable _ => true
  | _ => false

/-- Number of recoverable close events in a sequence. -/
def countCloses (evs : List ClientEvent) : Nat :=
  evs.countP isRecoverableClose

/-- Pending-activity budget of a state: a pending retry timer and a live
socket each count one. -/
def activityBudget (s : ClientState) : Nat :=
  (if s.timerPending then 1 else 0) + (if s.socketLive then 1 else 0)

/-- Abstract interface of the node crypto AES-256-GCM primitive used by
Encryption (an external capability of the runtime, not code of this
repository): raw encryption and decryption of a byte sequence under a key
and an initialization vector, and the authentication tag computed over the
ciphertext. -/
structure GcmPrimitive where
  encBytes : List Nat → List Nat → List Nat → List Nat
  decBytes : List Nat → List Nat → List Nat → List Nat
  tagBytes : List Nat → List Nat → List Nat → List Nat

/-- Errors thrown by Encryption.decrypt: a token too short to contain the
IV and the tag, or an authentication failure in decipher.final(). -/
inductive DecryptError
  | invalidData
  | authFailed
  deriving Repr, DecidableEq

/-- Constant IV_LENGTH of security/encryption.ts. -/
def ivLength : Nat := 16

/-- Constant AUTH_TAG_LENGTH of security/encryption.ts. -/
def authTagLength : Nat := 16

/-- Translation of Encryption.encrypt after initialize has derived the key:
the token is IV then auth tag then ciphertext (base64 text encoding of the
byte sequence abstracted away, being a bijection applied at the boundary). -/
def Encryption.encrypt (p : GcmPrimitive) (key iv data : List Nat) : List Nat :=
  let encrypted := p.encBytes key iv data
  iv ++ p.tagBytes key iv encrypted ++ encrypted

/-- Translation of Encryption.decrypt: reject tokens shorter than IV plus
tag, slice the token into IV, tag and ciphertext, and run the GCM decipher,
which fails when the tag does not authenticate under the key. -/
def Encryption.decrypt (p : GcmPrimitive) (key token : List Nat) :
    Except DecryptError (List Nat) :=
  if token.length < ivLength + authTagLength then .error .invalidData
  else
    let iv := token.take ivLength
    let tag := (token.drop ivLength).take authTagLength
    let ciphertext := token.drop (ivLength + authTagLength)
    if p.tagBytes key iv ciphertext = tag then .ok (p.decBytes key iv ciphertext)
    else .error .authFailed

/-- On-disk credential artifacts seen by useEncryptedAuthState: contents of
creds.enc and of creds.json when present. -/
structure AuthFS where
  encFile : Option (List Nat)
  plainFile : Option (List Nat)
  deriving Repr, DecidableEq

/-- Outcome of the credential-store loading operation: proceed, or the
thrown wrong-passphrase error. -/
inductive AuthLoadOutcome
  | ok
  | wrongPassphraseError
  deriving Repr, DecidableEq

/-- Translation of the startup decrypt branch of useEncryptedAuthState
(whatsapp/auth.ts): when an encrypted artifact exists, decrypt it to the
plaintext location before the session library loads it; on decryption
failure, delete the corrupted encrypted artifact and throw the
wrong-passphrase error without writing any plaintext. -/
def useEncryptedAuthState (p : GcmPrimitive) (key : List Nat) (fs : AuthFS) :
    AuthFS × AuthLoadOutcome :=
  match fs.encFile with
  | none => (fs, .ok)
  | some encData =>
    match Encryption.decrypt p key encData with
    | .ok plain => ({ fs with plainFile := some plain }, .ok)
    | .error _ => ({ fs with encFile := none }, .wrongPassphraseError)

/-- Status column of the scheduled_messages table. -/
inductive SchedStatus
  | pending
  | sent
  | failed
  | cancelled
  deriving Repr, DecidableEq

/-- A row of the scheduled_messages table. -/
structure ScheduledRow where
  id : String
  chatJid : String
  content : String
  mediaPath : Option String
  scheduledTime : String
  status : SchedStatus
  createdAt : String
  deriving Repr, DecidableEq

/-- The scheduled_messages table. -/
abbrev ScheduledDb := List ScheduledRow

/-- Translation of ScheduledMessageStore.getDue: pending rows whose
scheduled time has passed, ordered by scheduled time ascending. -/
def ScheduledMessageStore.getDue (db : ScheduledDb) (now : String) : List ScheduledRow :=
  sortByB (fun a b => textLeB a.scheduledTime b.scheduledTime)
    (db.filter (fun r => r.status == .pending && textLeB r.scheduledTime now))

/-- Translation of ScheduledMessageStore.updateStatus. -/
def ScheduledMessageStore.updateStatus (db : ScheduledDb) (id : String)
    (status : SchedStatus) : ScheduledDb :=
  db.map (fun r => if r.id == id then { r with status := status } else r)

/-- Translation of ScheduledMessageStore.cancel: set the status to cancelled
on the row with the given id only while it is still pending, and report
whether any row changed. -/
def ScheduledMessageStore.cancel (db : ScheduledDb) (id : String) : ScheduledDb × Bool :=
  let changes := db.countP (fun r => r.id == id && r.status == .pending)
  (db.map (fun r =>
      if r.id == id && r.status == .pending then { r with status := .cancelled } else r),
   decide (0 < changes))

/-- Translation of the message.due consumer installed by createServer: when
the client is connected it sends and marks sent, any thrown error marks
failed, and when the client is not connected nothing at all happens.  The
boolean result records whether a send was attempted. -/
def MessageScheduler.handleDue (connected sendThrows : Bool) (db : ScheduledDb)
    (msg : ScheduledRow) : ScheduledDb × Bool :=
  if connected then
    if sendThrows then (ScheduledMessageStore.updateStatus db msg.id .failed, true)
    else (ScheduledMessageStore.updateStatus db msg.id .sent, true)
  else (db, false)

/-- Well-formedness of a stored reaction map: no reactor is listed twice
under one emoji.  The reaction handler is the only writer of the column and
maintains this. -/
def ReactionsWF (m : List (String × List String)) : Prop :=
  ∀ p ∈ m, (p.2).Nodup

/-- Number of times a reactor appears under an emoji in the stored reaction
map of a message id (zero when the id is unknown). -/
def reactorCountDb (db : MessageDb) (id emoji sender : String) : Nat :=
  match MessageStore.getById db id with
  | some m => (((lookupAssoc (m.reactions.getD []) emoji)).getD []).count sender
  | none => 0

/-- The stored entry of an emoji in the reaction map of a message id. -/
def emojiEntryDb (db : MessageDb) (id emoji : String) : Option (List String) :=
  match MessageStore.getById db id with
  | some m => lookupAssoc (m.reactions.getD []) emoji
  | none => none

/-- Concrete message payload that stars m1. -/
def c1starPayload : MessageUpsert :=
  { id := "m1", chatJid := "c1", timestamp := "t0", isStarred := some true }

/-- Concrete replayed message payload for m1 with every optional field
absent. -/
def c1replayPayload : MessageUpsert :=
  { id := "m1", chatJid := "c1", timestamp := "t0" }

/-- Concrete chat row with five unread messages. -/
def c2chatRow : ChatRow :=
  { jid := "c1", name := some "Alice", isGroup := false, isArchived := false
    isPinned := false, isMuted := false, muteUntil := none, unreadCount := 5
    lastMessageTime := some "t1" }

/-- Concrete inbound message event for chat c1. -/
def c2msgEvent : IncomingMessageEv :=
  { id := "m9", chatJid := "c1", senderJid := "u1", content := some "hi"
    timestamp := "t2", isFromMe := false, isForwarded := false
    quotedMessageId := none, messageType := "text", mediaMimeType := none
    mediaFilename := none, mediaSize := none }

/-- Concrete uninitialized vector store. -/
def c3uninit : VectorStoreState := { initialized := false, rows := [] }

/-- Concrete client state with three reconnect attempts and a live socket. -/
def c4state : ClientState :=
  { reconnectAttempts := 3, timerPending := false, isConnected := false
    isConnecting := false, socketLive := true, scheduledDelays := []
    failedEmitted := 0, logoutEmitted := 0 }

/-- Concrete client state at the attempt cap, right after the last retry
timer was scheduled. -/
def c5cappedState : ClientState :=
  { reconnectAttempts := 10, timerPending := true, isConnected := false
    isConnecting := false, socketLive := false, scheduledDelays := []
    failedEmitted := 0, logoutEmitted := 0 }

/-- Concrete tail of a capped run: the last timer fires, the attempt
connects a socket, and the socket closes recoverably. -/
def c5finalEvents : List ClientEvent :=
  [ClientEvent.timerFire true, ClientEvent.closeRecoverable 0]

/-- Concrete stored message without reactions. -/
def c6msgRow : MessageRow :=
  { id := "m1", chatJid := "c1", senderJid := some "u1", content := some "hi"
    timestamp := "t0", isFromMe := false, isForwarded := false
    isStarred := false, isDeleted := false, replyToId := none
    mediaType := none, mediaUrl := none, mediaMimeType := none
    mediaFilename := none, mediaSize := none, mediaDownloaded := false
    mediaLocalPath := none, reactions := none }

/-- Concrete reaction event with the first emoji. -/
def c6firstReaction : ReactionEvent :=
  { messageId := "m1", chatJid := "c1", emoji := "e1", senderJid := "A" }

/-- Concrete reaction event with a second emoji. -/
def c6secondReaction : ReactionEvent :=
  { messageId := "m1", chatJid := "c1", emoji := "e2", senderJid := "A" }

/-- Toy instance of the authenticated-encryption primitive used to witness
the assumptions: the cipher is the identity and the tag is the key itself. -/
def toyPrim : GcmPrimitive :=
  { encBytes := fun _ _ d => d, decBytes := fun _ _ d => d
    tagBytes := fun k _ _ => k }

/-- Concrete sixteen-byte key. -/
def keyA : List Nat := List.replicate 16 0

/-- A different concrete sixteen-byte key. -/
def keyB : List Nat := List.replicate 16 1

/-- Concrete sixteen-byte initialization vector. -/
def ivA : List Nat := List.replicate 16 2

/-- Concrete on-disk state with a corrupted (too short) encrypted
credential artifact. -/
def c7fs : AuthFS := { encFile := some [1, 2, 3], plainFile := none }

/-- Concrete pending scheduled message whose time has passed. -/
def c9pendingRow : ScheduledRow :=
  { id := "s1", chatJid := "c1", content := "hello", mediaPath := none
    scheduledTime := "2024-01-01", status := .pending, createdAt := "2024-01-01" }

/-- Concrete scheduled message already sent. -/
def c9sentRow : ScheduledRow :=
  { c9pendingRow with id := "s2", status := .sent }

/-- Mapping a function that preserves a search predicate commutes with
find?. -/
theorem find?_map_pred_inv {α : Type} (f : α → α) (p : α → Bool)
    (hp : ∀ r, p (f r) = p r) (db : List α) :
    (db.map f).find? p = (db.find? p).map f := by
  induction db with
  | nil => rfl
  | cons r t ih =>
    by_cases h : p r = true
    · rw [List.map_cons,
        List.find?_cons_of_pos _ (show p (f r) = true by rw [hp]; exact h),
        List.find?_cons_of_pos _ h]
      rfl
    · rw [List.map_cons,
        List.find?_cons_of_neg _ (show ¬ p (f r) = true by rw [hp]; exact h),
        List.find?_cons_of_neg _ h, ih]

/-- A find? over an appended list skips a first part with no match. -/
theorem find?_append_none {α : Type} (p : α → Bool) (l1 l2 : List α)
    (h : l1.find? p = none) : (l1 ++ l2).find? p = l2.find? p := by
  induction l1 with
  | nil => rfl
  | cons a t ih =>
    rw [List.find?_eq_none] at h
    have ha : ¬ p a = true := h a (by simp)
    rw [List.cons_append, List.find?_cons_of_neg _ ha]
    exact ih (List.find?_eq_none.mpr (fun x hx => h x (by simp [hx])))

/-- C1: the claim that a message upsert with a null/absent field never
overwrites an existing non-null stored value fails for the boolean flags:
starring m1 and then re-upserting m1 with the flag absent clears the stored
starred flag (the stmt.run binding coerces an absent flag to 0, defeating
the COALESCE in the ON CONFLICT clause), while the row count stays one. -/
theorem C1_absent_flag_clobbers_starred :
    ((MessageStore.getById (MessageStore.upsert [] c1starPayload) "m1").map
        MessageRow.isStarred = some true)
    ∧ ((MessageStore.getById
          (MessageStore.upsert (MessageStore.upsert [] c1starPayload) c1replayPayload)
          "m1").map MessageRow.isStarred = some false)
    ∧ (MessageStore.upsert (MessageStore.upsert [] c1starPayload)
          c1replayPayload).length = 1 := by
  decide

/-- C2: the claim that only an explicit mark-as-read zeroes the unread
counter fails: the chat upsert that the sync pipeline performs when an
inbound message arrives binds the absent unread count as 0 and resets a
chat with five unread messages to zero. -/
theorem C2_inbound_sync_zeroes_unread :
    c2chatRow.unreadCount = 5
    ∧ ((ChatStore.getByJid (handleMessageNew [] [c2chatRow] c2msgEvent).2 "c1").map
        ChatRow.unreadCount = some 0) := by
  decide

/-- C3 counterexample: on an uninitialized vector store, search does not
return the empty result — it throws the not-initialized error. -/
theorem C3_search_throws_when_uninitialized :
    VectorStore.search c3uninit [1] 5 ≠ Except.ok []
    ∧ VectorStore.search c3uninit [1] 5 = Except.error "Vector store not initialized" := by
  constructor
  · intro h
    simp [VectorStore.search, c3uninit] at h
  · rfl

/-- C3 amended: when the vector store is not initialized, search and upsert
throw the not-initialized error, while getUnembeddedMessageIds,
hasEmbedding, getEmbeddedCount and delete are no-ops or return empty
results without throwing. -/
theorem C3_uninitialized_behaviour (vs : VectorStoreState) (q : List Int)
    (limit : Nat) (msgs : MessageDb) (id : String) (emb : List Int) (model : String)
    (h : vs.initialized = false) :
    VectorStore.search vs q limit = Except.error "Vector store not initialized"
    ∧ VectorStore.upsert vs id emb model = Except.error "Vector store not initialized"
    ∧ VectorStore.getUnembeddedMessageIds vs msgs limit = []
    ∧ VectorStore.hasEmbedding vs id = false
    ∧ VectorStore.getEmbeddedCount vs = 0
    ∧ VectorStore.delete vs id = vs := by
  refine ⟨?_, ?_, ?_, ?_, ?_, ?_⟩ <;>
    simp [VectorStore.search, VectorStore.upsert, VectorStore.getUnembeddedMessageIds,
      VectorStore.hasEmbedding, VectorStore.getEmbeddedCount, VectorStore.delete, h]

/-- Witness for the amended C3 theorem at a concrete uninitialized store. -/
theorem C3_uninitialized_behaviour_witness :
    c3uninit.initialized = false
    ∧ (VectorStore.search c3uninit [1] 5 = Except.error "Vector store not initialized"
      ∧ VectorStore.upsert c3uninit "m1" [1] "nomic" = Except.error "Vector store not initialized"
      ∧ VectorStore.getUnembeddedMessageIds c3uninit [] 5 = []
      ∧ VectorStore.hasEmbedding c3uninit "m1" = false
      ∧ VectorStore.getEmbeddedCount c3uninit = 0
      ∧ VectorStore.delete c3uninit "m1" = c3uninit) :=
  ⟨by decide, C3_uninitialized_behaviour c3uninit [1] 5 [] "m1" [1] "nomic" (by decide)⟩

/-- C4 counterexample: the attempt counter is not reset only strictly after
a successful connected transition — a manual disconnect() from a state with
three attempts resets it to zero while no connection was established. -/
theorem C4_reset_without_connected_transition :
    c4state.reconnectAttempts = 3
    ∧ (WhatsAppClient.step c4state ClientEvent.manualDisconnect).reconnectAttempts = 0
    ∧ (WhatsAppClient.step c4state ClientEvent.manualDisconnect).isConnected = false := by
  decide

/-- C4 amended: a retry scheduled from a state below the attempt cap has
delay min of base times two to the attempt counter plus the jitter and the
maximum delay; ignoring jitter the delay is non-decreasing in the attempt
number and always bounded by the maximum delay; the counter is reset to
zero by a successful connected transition, and the only other steps that
ever lower it are a manual disconnect and a logout-classified close, which
also reset it to zero. -/
theorem C4_backoff_and_counter_reset (s t : ClientState) (e : ClientEvent)
    (n n2 j : Nat) (hn : n ≤ n2) (_hj : j < 1000)
    (ha : s.reconnectAttempts < maxReconnectAttempts)
    (hd : (WhatsAppClient.step t e).reconnectAttempts < t.reconnectAttempts) :
    (WhatsAppClient.step s (ClientEvent.closeRecoverable j)).scheduledDelays
      = s.scheduledDelays
        ++ [min (baseReconnectDelay * 2 ^ s.reconnectAttempts + j) maxReconnectDelay]
    ∧ reconnectDelay n 0 ≤ reconnectDelay n2 0
    ∧ reconnectDelay n j ≤ maxReconnectDelay
    ∧ ((e = ClientEvent.connOpen ∨ e = ClientEvent.closeLoggedOut
        ∨ e = ClientEvent.manualDisconnect)
      ∧ (WhatsAppClient.step t e).reconnectAttempts = 0)
    ∧ (WhatsAppClient.step t ClientEvent.connOpen).reconnectAttempts = 0 := by
  refine ⟨?_, ?_, ?_, ?_, rfl⟩
  · simp [WhatsAppClient.step, WhatsAppClient.scheduleReconnect, Nat.not_le.mpr ha,
      reconnectDelay]
  · exact min_le_min (Nat.add_le_add_right
      (Nat.mul_le_mul_left baseReconnectDelay
        (Nat.pow_le_pow_right (by norm_num) hn)) 0) le_rfl
  · exact min_le_right _ _
  · cases e with
    | closeRecoverable jitter =>
      exfalso
      by_cases hc : t.reconnectAttempts ≥ maxReconnectAttempts <;>
        simp [WhatsAppClient.step, WhatsAppClient.scheduleReconnect, hc] at hd
    | closeLoggedOut => exact ⟨Or.inr (Or.inl rfl), rfl⟩
    | connOpen => exact ⟨Or.inl rfl, rfl⟩
    | timerFire ok =>
      exfalso
      simp only [WhatsAppClient.step, WhatsAppClient.connectStep] at hd
      by_cases hc : ({ t with timerPending := false } : ClientState).isConnecting
          || ({ t with timerPending := false } : ClientState).isConnected
      · simp [hc] at hd
      · cases ok <;> simp [hc] at hd
    | manualConnect ok =>
      exfalso
      simp only [WhatsAppClient.step, WhatsAppClient.connectStep] at hd
      by_cases hc : t.isConnecting || t.isConnected
      · simp [hc] at hd
      · cases ok <;> simp [hc] at hd
    | manualDisconnect => exact ⟨Or.inr (Or.inr rfl), rfl⟩

/-- Witness for the amended C4 theorem at concrete states, attempts and
jitter. -/
theorem C4_backoff_and_counter_reset_witness :
    2 ≤ 5 ∧ 7 < 1000
    ∧ c4state.reconnectAttempts < maxReconnectAttempts
    ∧ (WhatsAppClient.step c4state ClientEvent.manualDisconnect).reconnectAttempts
        < c4state.reconnectAttempts
    ∧ ((WhatsAppClient.step c4state (ClientEvent.closeRecoverable 7)).scheduledDelays
        = c4state.scheduledDelays
          ++ [min (baseReconnectDelay * 2 ^ c4state.reconnectAttempts + 7) maxReconnectDelay]
      ∧ reconnectDelay 2 0 ≤ reconnectDelay 5 0
      ∧ reconnectDelay 2 7 ≤ maxReconnectDelay
      ∧ ((ClientEvent.manualDisconnect = ClientEvent.connOpen
          ∨ ClientEvent.manualDisconnect = ClientEvent.closeLoggedOut
          ∨ ClientEvent.manualDisconnect = ClientEvent.manualDisconnect)
        ∧ (WhatsAppClient.step c4state ClientEvent.manualDisconnect).reconnectAttempts = 0)
      ∧ (WhatsAppClient.step c4state ClientEvent.connOpen).reconnectAttempts = 0) :=
  ⟨by decide, by decide, by decide, by decide,
    C4_backoff_and_counter_reset c4state c4state ClientEvent.manualDisconnect 2 5 7
      (by decide) (by decide) (by decide) (by decide)⟩

/-- One autonomous step from a capped state: it schedules no retry timer,
emits the terminal failure signal exactly on a recoverable close, stays
capped, and trades the pending-activity budget for the closes it consumes. -/
theorem capped_step (s : ClientState) (e : ClientEvent)
    (halw : eventAllowed s e = true) (hauto : autonomousEvent e = true)
    (hcap : maxReconnectAttempts ≤ s.reconnectAttempts) :
    (WhatsAppClient.step s e).scheduledDelays = s.scheduledDelays
    ∧ (WhatsAppClient.step s e).failedEmitted
        = s.failedEmitted + (if isRecoverableClose e then 1 else 0)
    ∧ maxReconnectAttempts ≤ (WhatsAppClient.step s e).reconnectAttempts
    ∧ (if isRecoverableClose e then 1 else 0)
        + activityBudget (WhatsAppClient.step s e) ≤ activityBudget s := by
  cases e with
  | closeRecoverable j =>
    have hlive : s.socketLive = true := halw
    have hge : maxReconnectAttempts ≤
        ({ s with isConnected := false, isConnecting := false, socketLive := false } : ClientState).reconnectAttempts := hcap
    refine ⟨?_, ?_, ?_, ?_⟩ <;>
      simp only [WhatsAppClient.step, WhatsAppClient.scheduleReconnect, if_pos hge,
        isRecoverableClose, activityBudget, hlive] <;>
      cases ht : s.timerPending <;> simp [hcap]
  | closeLoggedOut => simp [autonomousEvent] at hauto
  | connOpen => simp [autonomousEvent] at hauto
  | timerFire ok =>
    have htp : s.timerPending = true := halw
    by_cases h1 : s.isConnecting = true <;> by_cases h2 : s.isConnected = true <;>
      cases hs : s.socketLive <;> cases ok <;>
      simp [WhatsAppClient.step, WhatsAppClient.connectStep, isRecoverableClose,
        activityBudget, htp, h1, h2, hs, hcap]
  | manualConnect ok => simp [autonomousEvent] at hauto
  | manualDisconnect => simp [autonomousEvent] at hauto

/-- An autonomous well-formed run from a capped state schedules nothing,
emits one failure per recoverable close, and closes at most as often as the
pending-activity budget allows. -/
theorem capped_run_aux :
    ∀ (evs : List ClientEvent) (s : ClientState), wfRun s evs = true →
    evs.all autonomousEvent = true → maxReconnectAttempts ≤ s.reconnectAttempts →
    (WhatsAppClient.run s evs).scheduledDelays = s.scheduledDelays
    ∧ (WhatsAppClient.run s evs).failedEmitted = s.failedEmitted + countCloses evs
    ∧ countCloses evs + activityBudget (WhatsAppClient.run s evs) ≤ activityBudget s := by
  intro evs
  induction evs with
  | nil =>
    intro s _ _ _
    simp [WhatsAppClient.run, countCloses]
  | cons e rest ih =>
    intro s hwf hauto hcap
    have hwf2 := hwf
    rw [wfRun, Bool.and_eq_true] at hwf2
    obtain ⟨halw, hwfr⟩ := hwf2
    simp only [List.all_cons, Bool.and_eq_true] at hauto
    obtain ⟨hauto1, hauto2⟩ := hauto
    obtain ⟨hd, hf, hcap2, hb⟩ := capped_step s e halw hauto1 hcap
    obtain ⟨ihd, ihf, ihb⟩ := ih (WhatsAppClient.step s e) hwfr hauto2 hcap2
    have hrun : WhatsAppClient.run s (e :: rest)
        = WhatsAppClient.run (WhatsAppClient.step s e) rest := rfl
    have hcc : countCloses (e :: rest)
        = countCloses rest + (if isRecoverableClose e then 1 else 0) := by
      simp [countCloses, List.countP_cons]
    rw [hrun]
    refine ⟨by rw [ihd, hd], ?_, ?_⟩
    · rw [ihf, hf]
      omega
    · omega

/-- C5: once the attempt counter is at the cap (at which moment one retry
timer is pending and the socket is down), any continuation of the run that
contains no successful open, no logout close and no manual connect or
disconnect schedules no further retry timer, and emits the terminal
connection.failed signal exactly once per recoverable close that follows,
of which there can be at most one. -/
theorem C5_cap_stops_retries_and_fails_once (s : ClientState)
    (evs : List ClientEvent) (hwf : wfRun s evs = true)
    (hauto : evs.all autonomousEvent = true)
    (hcap : maxReconnectAttempts ≤ s.reconnectAttempts)
    (hbud : activityBudget s ≤ 1) :
    (WhatsAppClient.run s evs).scheduledDelays = s.scheduledDelays
    ∧ (WhatsAppClient.run s evs).failedEmitted = s.failedEmitted + countCloses evs
    ∧ countCloses evs ≤ 1 := by
  obtain ⟨hd, hf, hb⟩ := capped_run_aux evs s hwf hauto hcap
  exact ⟨hd, hf, by omega⟩

/-- Witness for C5 at the concrete capped state, with the last retry timer
firing, connecting and the socket closing recoverably. -/
theorem C5_cap_stops_retries_and_fails_once_witness :
    wfRun c5cappedState c5finalEvents = true
    ∧ c5finalEvents.all autonomousEvent = true
    ∧ maxReconnectAttempts ≤ c5cappedState.reconnectAttempts
    ∧ activityBudget c5cappedState ≤ 1
    ∧ ((WhatsAppClient.run c5cappedState c5finalEvents).scheduledDelays
        = c5cappedState.scheduledDelays
      ∧ (WhatsAppClient.run c5cappedState c5finalEvents).failedEmitted
          = c5cappedState.failedEmitted + countCloses c5finalEvents
      ∧ countCloses c5finalEvents ≤ 1) :=
  ⟨by decide, by decide, by decide, by decide,
    C5_cap_stops_retries_and_fails_once c5cappedState c5finalEvents
      (by decide) (by decide) (by decide) (by decide)⟩

/-- Decrypting a produced token slices it back into IV, tag and ciphertext
and reduces to the authentication check of the GCM decipher. -/
theorem decrypt_encrypt_reduce (p : GcmPrimitive) (k k2 iv x : List Nat)
    (hiv : iv.length = ivLength)
    (htag : (p.tagBytes k iv (p.encBytes k iv x)).length = authTagLength) :
    Encryption.decrypt p k2 (Encryption.encrypt p k iv x)
      = if p.tagBytes k2 iv (p.encBytes k iv x) = p.tagBytes k iv (p.encBytes k iv x)
        then Except.ok (p.decBytes k2 iv (p.encBytes k iv x))
        else Except.error DecryptError.authFailed := by
  have henc : Encryption.encrypt p k iv x
      = iv ++ (p.tagBytes k iv (p.encBytes k iv x) ++ p.encBytes k iv x) := by
    simp [Encryption.encrypt]
  have hguard : ¬ ((Encryption.encrypt p k iv x).length < ivLength + authTagLength) := by
    rw [henc]
    simp [List.length_append, hiv, htag]
  have h1 : (Encryption.encrypt p k iv x).take ivLength = iv := by
    rw [henc, ← hiv, List.take_left]
  have h2 : ((Encryption.encrypt p k iv x).drop ivLength).take authTagLength
      = p.tagBytes k iv (p.encBytes k iv x) := by
    rw [henc, ← hiv, List.drop_left, ← htag, List.take_left]
  have h3 : (Encryption.encrypt p k iv x).drop (ivLength + authTagLength)
      = p.encBytes k iv x := by
    rw [henc, ← List.append_assoc]
    have hl : (iv ++ p.tagBytes k iv (p.encBytes k iv x)).length
        = ivLength + authTagLength := by
      rw [List.length_append, hiv, htag]
    rw [← hl, List.drop_left]
  rw [Encryption.decrypt, if_neg hguard]
  simp only [h1, h2, h3]

/-- C8: after initialization, decrypting a token with the key that produced
it recovers the exact plaintext bytes, and decrypting it under a different
key (whose tag over the ciphertext differs, the guarantee of the
authenticated cipher) fails with the distinguishable authentication error
instead of returning any plaintext. -/
theorem C8_round_trip_and_wrong_key_fails (p : GcmPrimitive) (k k2 iv x : List Nat)
    (hiv : iv.length = ivLength)
    (htag : (p.tagBytes k iv (p.encBytes k iv x)).length = authTagLength)
    (hdec : p.decBytes k iv (p.encBytes k iv x) = x)
    (hkey : p.tagBytes k2 iv (p.encBytes k iv x) ≠ p.tagBytes k iv (p.encBytes k iv x)) :
    Encryption.decrypt p k (Encryption.encrypt p k iv x) = Except.ok x
    ∧ Encryption.decrypt p k2 (Encryption.encrypt p k iv x)
        = Except.error DecryptError.authFailed := by
  constructor
  · rw [decrypt_encrypt_reduce p k k iv x hiv htag, if_pos rfl, hdec]
  · rw [decrypt_encrypt_reduce p k k2 iv x hiv htag, if_neg hkey]

/-- Witness for C8 with the toy authenticated cipher, two distinct concrete
keys, a concrete IV and a concrete payload. -/
theorem C8_round_trip_and_wrong_key_fails_witness :
    ivA.length = ivLength
    ∧ (toyPrim.tagBytes keyA ivA (toyPrim.encBytes keyA ivA [9, 8, 7])).length
        = authTagLength
    ∧ toyPrim.decBytes keyA ivA (toyPrim.encBytes keyA ivA [9, 8, 7]) = [9, 8, 7]
    ∧ toyPrim.tagBytes keyB ivA (toyPrim.encBytes keyA ivA [9, 8, 7])
        ≠ toyPrim.tagBytes keyA ivA (toyPrim.encBytes keyA ivA [9, 8, 7])
    ∧ (Encryption.decrypt toyPrim keyA (Encryption.encrypt toyPrim keyA ivA [9, 8, 7])
        = Except.ok [9, 8, 7]
      ∧ Encryption.decrypt toyPrim keyB (Encryption.encrypt toyPrim keyA ivA [9, 8, 7])
          = Except.error DecryptError.authFailed) :=
  ⟨by decide, by decide, by decide, by decide,
    C8_round_trip_and_wrong_key_fails toyPrim keyA keyB ivA [9, 8, 7]
      (by decide) (by decide) (by decide) (by decide)⟩

/-- C7: when an encrypted credential artifact exists and decryption fails,
the loading operation deletes the corrupted encrypted artifact, raises the
wrong-passphrase error instead of proceeding, and writes no plaintext
credential file. -/
theorem C7_failed_decrypt_deletes_and_errors (p : GcmPrimitive) (key : List Nat)
    (fs : AuthFS) (encData : List Nat) (e : DecryptError)
    (henc : fs.encFile = some encData)
    (hfail : Encryption.decrypt p key encData = Except.error e) :
    (useEncryptedAuthState p key fs).1.encFile = none
    ∧ (useEncryptedAuthState p key fs).2 = AuthLoadOutcome.wrongPassphraseError
    ∧ (useEncryptedAuthState p key fs).1.plainFile = fs.plainFile := by
  simp [useEncryptedAuthState, henc, hfail]

/-- Witness for C7 at a concrete filesystem state whose encrypted artifact
is too short to decrypt. -/
theorem C7_failed_decrypt_deletes_and_errors_witness :
    c7fs.encFile = some [1, 2, 3]
    ∧ Encryption.decrypt toyPrim keyA [1, 2, 3] = Except.error DecryptError.invalidData
    ∧ ((useEncryptedAuthState toyPrim keyA c7fs).1.encFile = none
      ∧ (useEncryptedAuthState toyPrim keyA c7fs).2 = AuthLoadOutcome.wrongPassphraseError
      ∧ (useEncryptedAuthState toyPrim keyA c7fs).1.plainFile = c7fs.plainFile) :=
  ⟨by decide, by rfl,
    C7_failed_decrypt_deletes_and_errors toyPrim keyA c7fs [1, 2, 3]
      DecryptError.invalidData (by decide) (by rfl)⟩

/-- Counting with a predicate is invariant under sorted insertion, up to the
inserted element. -/
theorem countP_insertSorted {α : Type} (le : α → α → Bool) (p : α → Bool)
    (x : α) (l : List α) :
    (insertSorted le x l).countP p = l.countP p + (if p x then 1 else 0) := by
  induction l with
  | nil => simp [insertSorted, List.countP_cons]
  | cons y ys ih =>
    rw [insertSorted]
    by_cases h : le x y = true
    · simp only [if_pos h, List.countP_cons]
    · simp only [if_neg h, List.countP_cons, ih]
      omega

/-- Insertion sort preserves predicate counts. -/
theorem countP_sortByB {α : Type} (le : α → α → Bool) (p : α → Bool) (l : List α) :
    (sortByB le l).countP p = l.countP p := by
  induction l with
  | nil => rfl
  | cons y ys ih =>
    rw [sortByB, List.foldr_cons]
    rw [show List.foldr (insertSorted le) [] ys = sortByB le ys from rfl]
    rw [countP_insertSorted, ih, List.countP_cons]

/-- In a table with unique keys, exactly one row carries the key of a member
row satisfying a predicate that the member satisfies. -/
theorem countP_key_unique_one {α β : Type} [DecidableEq β] (key : α → β)
    (q : α → Bool) (db : List α) (hnd : (db.map key).Nodup)
    (r : α) (hr : r ∈ db) (hq : q r = true) :
    db.countP (fun x => (key x == key r) && q x) = 1 := by
  induction db with
  | nil => cases hr
  | cons a t ih =>
    rw [List.map_cons, List.nodup_cons] at hnd
    obtain ⟨hna, hnt⟩ := hnd
    rcases List.mem_cons.mp hr with rfl | hrt
    · have ht0 : t.countP (fun x => (key x == key r) && q x) = 0 := by
        refine List.countP_eq_zero.mpr (fun x hx => ?_)
        have hne : key x ≠ key r := by
          intro h
          exact hna (h ▸ List.mem_map_of_mem key hx)
        simp [hne]
      rw [List.countP_cons, ht0]
      simp [hq]
    · have hne : key a ≠ key r := by
        intro h
        exact hna (h ▸ List.mem_map_of_mem key hrt)
      rw [List.countP_cons, ih hnt hrt]
      simp [hne]

/-- A pending row whose scheduled time has passed is reported by the due
query exactly once per poll in a table with unique ids. -/
theorem getDue_count_one (db : ScheduledDb) (now : String) (r : ScheduledRow)
    (hnd : (db.map ScheduledRow.id).Nodup) (hr : r ∈ db)
    (hp : r.status = SchedStatus.pending)
    (hdue : textLeB r.scheduledTime now = true) :
    (ScheduledMessageStore.getDue db now).countP (fun x => x.id == r.id) = 1 := by
  rw [ScheduledMessageStore.getDue, countP_sortByB, List.countP_filter]
  exact countP_key_unique_one ScheduledRow.id
    (fun x => x.status == SchedStatus.pending && textLeB x.scheduledTime now)
    db hnd r hr (by simp [hp, hdue])

/-- After its status is moved off pending, a row is no longer reported by
the due query. -/
theorem getDue_count_zero_after (db : ScheduledDb) (now : String) (rid : String)
    (st : SchedStatus) (hst : st ≠ SchedStatus.pending) :
    (ScheduledMessageStore.getDue
        (ScheduledMessageStore.updateStatus db rid st) now).countP
      (fun x => x.id == rid) = 0 := by
  rw [ScheduledMessageStore.getDue, countP_sortByB, List.countP_filter]
  refine List.countP_eq_zero.mpr (fun x hx => ?_)
  rw [ScheduledMessageStore.updateStatus] at hx
  obtain ⟨y, hy, rfl⟩ := List.mem_map.mp hx
  by_cases h : (y.id == rid) = true
  · simp [h, hst]
  · simp [h]

/-- Cancelling a row that is no longer pending changes nothing and reports
false. -/
theorem cancel_nonpending (db : ScheduledDb) (r : ScheduledRow)
    (hnd : (db.map ScheduledRow.id).Nodup) (hr : r ∈ db)
    (hst : r.status ≠ SchedStatus.pending) :
    ScheduledMessageStore.cancel db r.id = (db, false) := by
  have hzero : db.countP
      (fun x => x.id == r.id && x.status == SchedStatus.pending) = 0 := by
    refine List.countP_eq_zero.mpr (fun x hx => ?_)
    by_cases h : (x.id == r.id) = true
    · have hxr : x = r :=
        List.inj_on_of_nodup_map hnd hx hr (beq_iff_eq.mp h)
      subst hxr
      simp [h, hst]
    · simp [h]
  have hmap : db.map (fun x =>
      if x.id == r.id && x.status == SchedStatus.pending
      then { x with status := SchedStatus.cancelled } else x) = db := by
    have hcong : ∀ x ∈ db,
        (if x.id == r.id && x.status == SchedStatus.pending
          then { x with status := SchedStatus.cancelled } else x) = x := by
      intro x hx
      have := List.countP_eq_zero.mp hzero x hx
      simp only [Bool.not_eq_true] at this
      simp [this]
    rw [List.map_congr_left hcong]
    simp
  rw [ScheduledMessageStore.cancel]
  simp only [hzero, hmap]
  rfl

/-- C9: a pending scheduled message whose time has passed appears in the due
query exactly once per poll; once its status leaves pending it is excluded;
cancelling a sent row returns false and leaves the table unchanged; and a
cancel that returns true can only have hit a row that was still pending. -/
theorem C9_due_and_cancel_transitions (db db2 db3 : ScheduledDb) (now : String)
    (r r2 : ScheduledRow) (id3 : String)
    (hnd : (db.map ScheduledRow.id).Nodup) (hr : r ∈ db)
    (hp : r.status = SchedStatus.pending)
    (hdue : textLeB r.scheduledTime now = true)
    (hnd2 : (db2.map ScheduledRow.id).Nodup) (hr2 : r2 ∈ db2)
    (hst2 : r2.status = SchedStatus.sent)
    (hc3 : (ScheduledMessageStore.cancel db3 id3).2 = true) :
    (ScheduledMessageStore.getDue db now).countP (fun x => x.id == r.id) = 1
    ∧ (ScheduledMessageStore.getDue
          (ScheduledMessageStore.updateStatus db r.id SchedStatus.sent) now).countP
        (fun x => x.id == r.id) = 0
    ∧ ScheduledMessageStore.cancel db2 r2.id = (db2, false)
    ∧ ∃ r3 ∈ db3, r3.id = id3 ∧ r3.status = SchedStatus.pending := by
  refine ⟨getDue_count_one db now r hnd hr hp hdue,
    getDue_count_zero_after db now r.id SchedStatus.sent (by simp),
    cancel_nonpending db2 r2 hnd2 hr2 (by simp [hst2]), ?_⟩
  rw [ScheduledMessageStore.cancel] at hc3
  simp only [decide_eq_true_eq] at hc3
  obtain ⟨x, hx, hpx⟩ := List.countP_pos_iff.mp hc3
  rw [Bool.and_eq_true] at hpx
  exact ⟨x, hx, beq_iff_eq.mp hpx.1, beq_iff_eq.mp hpx.2⟩

/-- Witness for C9 with a one-row table of a due pending message, a one-row
table of a sent message, and a concrete successful cancel. -/
theorem C9_due_and_cancel_transitions_witness :
    (([c9pendingRow] : ScheduledDb).map ScheduledRow.id).Nodup
    ∧ c9pendingRow ∈ ([c9pendingRow] : ScheduledDb)
    ∧ c9pendingRow.status = SchedStatus.pending
    ∧ textLeB c9pendingRow.scheduledTime "2024-01-02" = true
    ∧ (([c9sentRow] : ScheduledDb).map ScheduledRow.id).Nodup
    ∧ c9sentRow ∈ ([c9sentRow] : ScheduledDb)
    ∧ c9sentRow.status = SchedStatus.sent
    ∧ (ScheduledMessageStore.cancel [c9pendingRow] "s1").2 = true
    ∧ ((ScheduledMessageStore.getDue [c9pendingRow] "2024-01-02").countP
          (fun x => x.id == c9pendingRow.id) = 1
      ∧ (ScheduledMessageStore.getDue
            (ScheduledMessageStore.updateStatus [c9pendingRow] c9pendingRow.id
              SchedStatus.sent) "2024-01-02").countP
          (fun x => x.id == c9pendingRow.id) = 0
      ∧ ScheduledMessageStore.cancel [c9sentRow] c9sentRow.id = ([c9sentRow], false)
      ∧ ∃ r3 ∈ ([c9pendingRow] : ScheduledDb), r3.id = "s1"
          ∧ r3.status = SchedStatus.pending) :=
  ⟨by decide, by decide, by decide, by decide, by decide, by decide, by decide, by decide,
    C9_due_and_cancel_transitions [c9pendingRow] [c9sentRow] [c9pendingRow]
      "2024-01-02" c9pendingRow c9sentRow "s1"
      (by decide) (by decide) (by decide) (by decide) (by decide) (by decide)
      (by decide) (by decide)⟩

/-- C10: when a scheduled message comes due while the client is not
connected, the delivery consumer attempts no send and changes no state, so
the message stays pending and is reported due again on the next poll; and a
delivery pass whose send does not throw never leaves the row failed. -/
theorem C10_disconnected_due_is_noop (db db4 : ScheduledDb)
    (msg msg4 : ScheduledRow) (now : String) (sendThrows c4 t4 : Bool)
    (hnd : (db.map ScheduledRow.id).Nodup) (hmem : msg ∈ db)
    (hp : msg.status = SchedStatus.pending)
    (hdue : textLeB msg.scheduledTime now = true)
    (hnd4 : (db4.map ScheduledRow.id).Nodup) (hmem4 : msg4 ∈ db4)
    (hp4 : msg4.status = SchedStatus.pending) (ht4 : t4 = false) :
    MessageScheduler.handleDue false sendThrows db msg = (db, false)
    ∧ (ScheduledMessageStore.getDue
          (MessageScheduler.handleDue false sendThrows db msg).1 now).countP
        (fun x => x.id == msg.id) = 1
    ∧ (MessageScheduler.handleDue c4 t4 db4 msg4).1.countP
        (fun x => x.id == msg4.id && x.status == SchedStatus.failed) = 0 := by
  refine ⟨rfl, getDue_count_one db now msg hnd hmem hp hdue, ?_⟩
  subst ht4
  cases c4
  · simp only [MessageScheduler.handleDue, Bool.false_eq_true, if_false]
    refine List.countP_eq_zero.mpr (fun x hx => ?_)
    by_cases h : (x.id == msg4.id) = true
    · have hxr : x = msg4 := List.inj_on_of_nodup_map hnd4 hx hmem4 (beq_iff_eq.mp h)
      subst hxr
      simp [h, hp4]
    · simp [h]
  · simp only [MessageScheduler.handleDue, Bool.false_eq_true, if_false, if_true]
    refine List.countP_eq_zero.mpr (fun x hx => ?_)
    rw [ScheduledMessageStore.updateStatus] at hx
    obtain ⟨y, hy, rfl⟩ := List.mem_map.mp hx
    by_cases h : (y.id == msg4.id) = true
    · simp [h]
    · simp [h]

/-- Witness for C10 with a one-row table of a due pending message, checked
both against a disconnected delivery pass and a connected one that sends
without throwing. -/
theorem C10_disconnected_due_is_noop_witness :
    (([c9pendingRow] : ScheduledDb).map ScheduledRow.id).Nodup
    ∧ c9pendingRow ∈ ([c9pendingRow] : ScheduledDb)
    ∧ c9pendingRow.status = SchedStatus.pending
    ∧ textLeB c9pendingRow.scheduledTime "2024-01-02" = true
    ∧ (false : Bool) = false
    ∧ (MessageScheduler.handleDue false false [c9pendingRow] c9pendingRow
        = ([c9pendingRow], false)
      ∧ (ScheduledMessageStore.getDue
            (MessageScheduler.handleDue false false [c9pendingRow] c9pendingRow).1
            "2024-01-02").countP (fun x => x.id == c9pendingRow.id) = 1
      ∧ (MessageScheduler.handleDue true false [c9pendingRow] c9pendingRow).1.countP
          (fun x => x.id == c9pendingRow.id && x.status == SchedStatus.failed) = 0) :=
  ⟨by decide, by decide, by decide, by decide, by decide,
    C10_disconnected_due_is_noop [c9pendingRow] [c9pendingRow] c9pendingRow
      c9pendingRow "2024-01-02" false true false
      (by decide) (by decide) (by decide) (by decide) (by decide) (by decide)
      (by decide) (by decide)⟩

/-- A find? over an appended list keeps a match found in the first part. -/
theorem find?_append_some {α : Type} (p : α → Bool) (l1 l2 : List α) (a : α)
    (h : l1.find? p = some a) : (l1 ++ l2).find? p = some a := by
  induction l1 with
  | nil => cases h
  | cons x t ih =>
    by_cases hx : p x = true
    · rw [List.find?_cons_of_pos _ hx] at h
      rw [List.cons_append, List.find?_cons_of_pos _ hx]
      exact h
    · rw [List.find?_cons_of_neg _ hx] at h
      rw [List.cons_append, List.find?_cons_of_neg _ hx]
      exact ih h

/-- Looking up the key just written by the object assignment yields the
written value. -/
theorem lookupAssoc_setAssoc_self (m : List (String × List String))
    (k : String) (v : List String) :
    lookupAssoc (setAssoc m k v) k = some v := by
  rw [setAssoc]
  by_cases ha : (m.any (fun p => p.1 == k)) = true
  · rw [if_pos ha, lookupAssoc]
    have hp : ∀ p : String × List String,
        (((if p.1 == k then (k, v) else p) : String × List String).1 == k)
          = (p.1 == k) := by
      intro p
      by_cases h2 : (p.1 == k) = true <;> simp [h2]
    rw [find?_map_pred_inv _ _ hp m]
    obtain ⟨p0, hp0m, hp0⟩ := List.any_eq_true.mp ha
    cases heq : m.find? (fun p => p.1 == k) with
    | none =>
      exact absurd hp0 (List.find?_eq_none.mp heq p0 hp0m)
    | some q =>
      have hq : (q.1 == k) = true := by simpa using List.find?_some heq
      simp [beq_iff_eq.mp hq]
  · rw [if_neg ha, lookupAssoc, find?_append_none]
    · simp
    · refine List.find?_eq_none.mpr (fun p hp hpk => ?_)
      exact ha (List.any_eq_true.mpr ⟨p, hp, hpk⟩)

/-- The object assignment of one key leaves the entry of every other key
unchanged. -/
theorem lookupAssoc_setAssoc_ne (m : List (String × List String))
    (k k2 : String) (v : List String) (h : k2 ≠ k) :
    lookupAssoc (setAssoc m k v) k2 = lookupAssoc m k2 := by
  rw [setAssoc]
  by_cases ha : (m.any (fun p => p.1 == k)) = true
  · rw [if_pos ha, lookupAssoc, lookupAssoc]
    have hp : ∀ p : String × List String,
        (((if p.1 == k then (k, v) else p) : String × List String).1 == k2)
          = (p.1 == k2) := by
      intro p
      by_cases h2 : (p.1 == k) = true
      · have hk : p.1 = k := beq_iff_eq.mp h2
        simp [h2, hk]
      · simp [h2]
    rw [find?_map_pred_inv _ _ hp m]
    cases heq : m.find? (fun p => p.1 == k2) with
    | none => simp
    | some q =>
      have hq : q.1 = k2 := beq_iff_eq.mp (by simpa using List.find?_some heq)
      simp [hq, h]
  · rw [if_neg ha, lookupAssoc, lookupAssoc]
    cases heq : m.find? (fun p => p.1 == k2) with
    | none =>
      rw [find?_append_none _ _ _ heq]
      have hkk2 : (k == k2) = false := beq_eq_false_iff_ne.mpr (fun hk => h hk.symm)
      simp [List.find?_cons, hkk2]
    | some q =>
      rw [find?_append_some _ _ _ _ heq]

/-- The entry read for any emoji from a well-formed reaction map has no
duplicate reactors. -/
theorem entry_nodup (rs : List (String × List String)) (hwf : ReactionsWF rs)
    (k : String) : ((lookupAssoc rs k).getD []).Nodup := by
  rw [lookupAssoc]
  cases heq : rs.find? (fun p => p.1 == k) with
  | none => simp
  | some q =>
    exact hwf q (List.mem_of_find?_eq_some heq)

/-- Rewriting the reactions of a message and reading it back yields the row
with the new map. -/
theorem getById_updateReactions (db : MessageDb) (id : String)
    (rs : List (String × List String)) (m : MessageRow)
    (h : MessageStore.getById db id = some m) :
    MessageStore.getById (MessageStore.updateReactions db id rs) id
      = some { m with reactions := some rs } := by
  have hp : ∀ r : MessageRow,
      (((if r.id == id then { r with reactions := some rs } else r) : MessageRow).id
        == id) = (r.id == id) := by
    intro r
    by_cases h2 : (r.id == id) = true <;> simp [h2]
  rw [MessageStore.updateReactions, MessageStore.getById,
    find?_map_pred_inv _ _ hp db]
  rw [MessageStore.getById] at h
  rw [h]
  have hm : (m.id == id) = true := by simpa using List.find?_some h
  simp [hm]
  intro hne
  exact absurd (beq_iff_eq.mp hm) hne

/-- Reduction of the reaction handler when the target message is found. -/
theorem handleReaction_found (db : MessageDb) (ev : ReactionEvent) (m : MessageRow)
    (h : MessageStore.getById db ev.messageId = some m) :
    handleReaction db ev
      = MessageStore.updateReactions db ev.messageId
          (setAssoc (m.reactions.getD []) ev.emoji
            (if ev.senderJid ∈ ((lookupAssoc (m.reactions.getD []) ev.emoji).getD [])
              then ((lookupAssoc (m.reactions.getD []) ev.emoji).getD [])
              else ((lookupAssoc (m.reactions.getD []) ev.emoji).getD [])
                ++ [ev.senderJid])) := by
  rw [handleReaction, h]

/-- Reduction of the reaction handler when the target message is unknown:
nothing happens and nothing is thrown. -/
theorem handleReaction_missing (db : MessageDb) (ev : ReactionEvent)
    (h : MessageStore.getById db ev.messageId = none) :
    handleReaction db ev = db := by
  rw [handleReaction, h]

/-- A single reaction application rewrites the stored row as read back by
id. -/
theorem handleReaction_getById (db : MessageDb) (ev : ReactionEvent)
    (m : MessageRow) (h : MessageStore.getById db ev.messageId = some m) :
    MessageStore.getById (handleReaction db ev) ev.messageId
      = some { m with reactions := some (setAssoc (m.reactions.getD []) ev.emoji
          (if ev.senderJid ∈ ((lookupAssoc (m.reactions.getD []) ev.emoji).getD [])
            then ((lookupAssoc (m.reactions.getD []) ev.emoji).getD [])
            else ((lookupAssoc (m.reactions.getD []) ev.emoji).getD [])
              ++ [ev.senderJid])) } := by
  rw [handleReaction_found db ev m h]
  exact getById_updateReactions db _ _ m h

/-- C6: reaction processing is idempotent and merge-safe.  Applying the
same reaction twice leaves exactly one entry for the reactor under the
emoji; applying a reaction with a different emoji to the same message
leaves the first emoji entry untouched and adds a second top-level key;
and a reaction whose target message is unknown is a no-op, never a throw. -/
theorem C6_reaction_merge (db dbq : MessageDb) (ev ev2 evq : ReactionEvent)
    (m : MessageRow)
    (h0 : MessageStore.getById db ev.messageId = some m)
    (hwf : ReactionsWF (m.reactions.getD []))
    (hid : ev2.messageId = ev.messageId)
    (hem : ev2.emoji ≠ ev.emoji)
    (hq : MessageStore.getById dbq evq.messageId = none) :
    reactorCountDb (handleReaction (handleReaction db ev) ev)
        ev.messageId ev.emoji ev.senderJid = 1
    ∧ emojiEntryDb (handleReaction (handleReaction db ev) ev2)
          ev.messageId ev.emoji
        = emojiEntryDb (handleReaction db ev) ev.messageId ev.emoji
    ∧ (emojiEntryDb (handleReaction (handleReaction db ev) ev2)
          ev.messageId ev2.emoji).isSome = true
    ∧ handleReaction dbq evq = dbq := by
  set entry := (lookupAssoc (m.reactions.getD []) ev.emoji).getD [] with hentry
  set entry2 := (if ev.senderJid ∈ entry then entry else entry ++ [ev.senderJid])
    with hentry2
  set map1 := setAssoc (m.reactions.getD []) ev.emoji entry2 with hmap1
  have hg1 : MessageStore.getById (handleReaction db ev) ev.messageId
      = some { m with reactions := some map1 } := handleReaction_getById db ev m h0
  have hmem2 : ev.senderJid ∈ entry2 := by
    rw [hentry2]
    by_cases hmem : ev.senderJid ∈ entry
    · rw [if_pos hmem]
      exact hmem
    · rw [if_neg hmem]
      exact List.mem_append_right _ (List.mem_singleton.mpr rfl)
  have hnd : entry.Nodup := entry_nodup _ hwf _
  have hcount1 : entry2.count ev.senderJid = 1 := by
    rw [hentry2]
    by_cases hmem : ev.senderJid ∈ entry
    · rw [if_pos hmem]
      exact List.count_eq_one_of_mem hnd hmem
    · rw [if_neg hmem, List.count_append, List.count_eq_zero_of_not_mem hmem]
      simp
  have hproj : ({ m with reactions := some map1 } : MessageRow).reactions.getD []
      = map1 := rfl
  have hlkself : lookupAssoc map1 ev.emoji = some entry2 :=
    lookupAssoc_setAssoc_self _ _ _
  refine ⟨?_, ?_, ?_, handleReaction_missing dbq evq hq⟩
  · have hg2 := handleReaction_getById (handleReaction db ev) ev _ hg1
    rw [hproj, hlkself] at hg2
    simp only [Option.getD_some, if_pos hmem2] at hg2
    rw [reactorCountDb, hg2]
    simp only [Option.getD_some]
    rw [lookupAssoc_setAssoc_self]
    simp [hcount1]
  · have hg1b : MessageStore.getById (handleReaction db ev) ev2.messageId
        = some { m with reactions := some map1 } := by
      rw [hid]
      exact hg1
    have hg2b := handleReaction_getById (handleReaction db ev) ev2 _ hg1b
    rw [hproj] at hg2b
    rw [emojiEntryDb, emojiEntryDb, ← hid, hg2b, hg1b]
    simp only [Option.getD_some]
    exact lookupAssoc_setAssoc_ne _ _ _ _ (Ne.symm hem)
  · have hg1b : MessageStore.getById (handleReaction db ev) ev2.messageId
        = some { m with reactions := some map1 } := by
      rw [hid]
      exact hg1
    have hg2b := handleReaction_getById (handleReaction db ev) ev2 _ hg1b
    rw [hproj] at hg2b
    rw [emojiEntryDb, ← hid, hg2b]
    simp only [Option.getD_some]
    rw [lookupAssoc_setAssoc_self]
    rfl

/-- Witness for C6 on a concrete one-message table without prior reactions,
a repeated reaction, a second emoji and an unknown-target reaction. -/
theorem C6_reaction_merge_witness :
    MessageStore.getById [c6msgRow] c6firstReaction.messageId = some c6msgRow
    ∧ ReactionsWF (c6msgRow.reactions.getD [])
    ∧ c6secondReaction.messageId = c6firstReaction.messageId
    ∧ c6secondReaction.emoji ≠ c6firstReaction.emoji
    ∧ MessageStore.getById [] c6firstReaction.messageId = none
    ∧ (reactorCountDb (handleReaction (handleReaction [c6msgRow] c6firstReaction)
            c6firstReaction) c6firstReaction.messageId c6firstReaction.emoji
          c6firstReaction.senderJid = 1
      ∧ emojiEntryDb (handleReaction (handleReaction [c6msgRow] c6firstReaction)
            c6secondReaction) c6firstReaction.messageId c6firstReaction.emoji
          = emojiEntryDb (handleReaction [c6msgRow] c6firstReaction)
              c6firstReaction.messageId c6firstReaction.emoji
      ∧ (emojiEntryDb (handleReaction (handleReaction [c6msgRow] c6firstReaction)
            c6secondReaction) c6firstReaction.messageId
            c6secondReaction.emoji).isSome = true
      ∧ handleReaction [] c6firstReaction = []) :=
  ⟨by decide, by simp [ReactionsWF, c6msgRow], by decide, by decide, by decide,
    C6_reaction_merge [c6msgRow] [] c6firstReaction c6secondReaction c6firstReaction
      c6msgRow (by decide) (by simp [ReactionsWF, c6msgRow]) (by decide) (by decide)
      (by decide)⟩
